import Mathlib

/-!
Verification of the code-review-agent analysis pipeline against its
natural-language specification.

The definitions below are a shallow embedding of the Python sources:

* app/tasks/analyze_tasks.py   — update_task_status, save_analysis_results,
                                 analyze_pr_task (its status/progress writes)
* app/api/v1/endpoints/analyze.py — cancel_analysis_task
* app/agents/ai_workflow.py    — PythonCodeAnalysisWorkflow (file selection,
                                 content fetching, per-file analysis, synthesis)
* app/agents/analyzer.py       — LangGraphAnalyzer.analyze_pr
* app/agents/tools/python_tools.py — bug_analysis_tool
* app/agents/intelligent_workflow.py — synthesize_report_node
* app/services/llm_service.py  — AIAnalysisIssue validation/coercion

Python dictionaries are modelled as structures (or association lists where
keys are dynamic), machine floats by rationals (every value the code uses is
an exact decimal), datetimes by natural-number instants, and exceptions by
Except / Option with an explicit catch at the places the source catches them.
-/

namespace CodeReviewAgent

/-- Truthy `a or b` on an optional string (Python: None and "" are falsy). -/
def pyStrOr (a : Option String) (b : String) : String :=
  match a with
  | some s => if s = "" then b else s
  | none => b

/-- Python str.endswith, computed on the character lists (kernel-reducible
implementation of String.endsWith). -/
def strEndsWith (s suffix : String) : Bool :=
  s.data.reverse.take suffix.data.length == suffix.data.reverse

/-- Split a character list at a separator character (the semantics of
Python str.split for one-character separators). -/
def splitOnChar (c : Char) : List Char → List (List Char)
  | [] => [[]]
  | x :: xs =>
      match splitOnChar c xs with
      | [] => [[]]
      | h :: t => if x = c then [] :: h :: t else (x :: h) :: t

/-- ASCII lower-casing of one character. -/
def charLower (c : Char) : Char :=
  if 65 ≤ c.toNat ∧ c.toNat ≤ 90 then Char.ofNat (c.toNat + 32) else c

/-- Python str.lower, computed on the character lists (kernel-reducible
implementation of String.toLower). -/
def strToLower (s : String) : String :=
  String.mk (s.data.map charLower)

/-- Python os-path basename via path.split("/")[-1]. -/
def lastPathComponent (path : String) : String :=
  String.mk ((splitOnChar (Char.ofNat 47) path.data).getLastD [])

/-- models/database.py TaskStatus -/
inductive TaskStatus where
  | pending
  | processing
  | completed
  | failed
  | cancelled
deriving DecidableEq, Repr

/-- models/database.py AnalysisTask: the fields touched by status updates.
Timestamps are naturals, progress is a rational (the source uses floats
0.0 … 100.0, all exact decimals). -/
structure Task where
  status : TaskStatus
  progress : ℚ
  started_at : Option Nat
  completed_at : Option Nat
  error_message : Option String
deriving DecidableEq, Repr

/-- tasks/analyze_tasks.py update_task_status, lines 76-90: the mutation
applied to a task row that was found, at instant `now`.  Mirrors the
sequence: set status and progress; `if status == PROCESSING and not
task.started_at` set started_at, `elif status in [COMPLETED, FAILED]` set
completed_at; `if message:` set error_message to the message when FAILED
and to None otherwise (a falsy message leaves the field untouched). -/
def updateTaskFields (task : Task) (status : TaskStatus) (progress : ℚ)
    (message : Option String) (now : Nat) : Task :=
  let t1 := { task with status := status, progress := progress }
  let t2 :=
    if status = TaskStatus.processing ∧ t1.started_at = none then
      { t1 with started_at := some now }
    else if status = TaskStatus.completed ∨ status = TaskStatus.failed then
      { t1 with completed_at := some now }
    else t1
  match message with
  | some m =>
      if m ≠ "" then
        { t2 with error_message :=
            if status = TaskStatus.failed then some m else none }
      else t2
  | none => t2

/-- The task table, keyed by task id. -/
abbrev TaskDB := List (Nat × Task)

/-- Replace the row with the given id. -/
def dbSet (db : TaskDB) (id : Nat) (t : Task) : TaskDB :=
  db.map (fun p => if p.1 = id then (id, t) else p)

/-- The body of update_task_status inside its try block: look the task up;
if absent, log and write nothing; otherwise mutate and commit.  `commitOk`
models whether the database session raises while committing. -/
def update_task_status_attempt (db : TaskDB) (commitOk : Bool) (task_id : Nat)
    (status : TaskStatus) (progress : ℚ) (message : Option String)
    (now : Nat) : Except String TaskDB :=
  match db.lookup task_id with
  | some task =>
      if commitOk then
        Except.ok (dbSet db task_id (updateTaskFields task status progress message now))
      else Except.error "commit failed"
  | none => Except.ok db

/-- tasks/analyze_tasks.py update_task_status, lines 56-98: the whole body
is wrapped in `try: … except Exception: logger.error(…)`, so every failure
is swallowed and the caller always gets control back with the table
unchanged. -/
def update_task_status (db : TaskDB) (commitOk : Bool) (task_id : Nat)
    (status : TaskStatus) (progress : ℚ) (message : Option String)
    (now : Nat) : TaskDB :=
  match update_task_status_attempt db commitOk task_id status progress message now with
  | Except.ok db2 => db2
  | Except.error _ => db

/-- api/v1/endpoints/analyze.py cancel_analysis_task, lines 121-153:
404 when the task row is absent, 409 unless the status is PENDING or
PROCESSING, otherwise set status to CANCELLED and error_message to
`request.reason or "Task cancelled by user"`. -/
def cancel_analysis_task (task : Option Task) (reason : Option String) :
    Except String Task :=
  match task with
  | none => Except.error "404 Task not found"
  | some t =>
      if t.status ≠ TaskStatus.pending ∧ t.status ≠ TaskStatus.processing then
        Except.error "409 Cannot cancel task"
      else
        Except.ok { t with
          status := TaskStatus.cancelled,
          error_message := some (pyStrOr reason "Task cancelled by user") }

/-! ## The pipeline run of tasks/analyze_tasks.py analyze_pr_task -/

/-- Outcome of the langgraph_analyzer.analyze_pr call as seen by the task:
either it returns a result whose status is not "failed", or it returns a
result with status "failed", or it raises. -/
inductive AnalysisOutcome where
  | ok
  | failedStatus (err : String)
  | raised (err : String)
deriving DecidableEq, Repr

/-- Resolved outcomes of the external calls one run of analyze_pr_task
makes, in program order. -/
structure RunEnv where
  metadataOk : Bool
  stateOpenOrClosed : Bool
  filesFetchOk : Bool
  fileCount : Nat
  analysis : AnalysisOutcome
  saveOk : Bool

/-- tasks/analyze_tasks.py analyze_pr_task, lines 193-465: the sequence of
(status, progress) pairs passed to update_task_status over one run, in
order.  GitHub exceptions and unexpected exceptions both end in
(FAILED, 0.0); an invalid PR state, a "failed" analysis result, a raising
analysis call and a raising save_analysis_results all write (FAILED, 0.0);
an empty file list writes (COMPLETED, 100.0) early.  Celery
self.update_state calls do not touch the task record and are omitted. -/
def analyze_pr_task_updates (env : RunEnv) : List (TaskStatus × ℚ) :=
  (TaskStatus.processing, 0) ::
    if ¬ env.metadataOk then [(TaskStatus.failed, 0)]
    else
      (TaskStatus.processing, 10) ::
        if ¬ env.stateOpenOrClosed then [(TaskStatus.failed, 0)]
        else if ¬ env.filesFetchOk then [(TaskStatus.failed, 0)]
        else
          (TaskStatus.processing, 30) ::
            if env.fileCount = 0 then [(TaskStatus.completed, 100)]
            else
              (TaskStatus.processing, 80) ::
                match env.analysis with
                | AnalysisOutcome.failedStatus _ => [(TaskStatus.failed, 0)]
                | AnalysisOutcome.raised _ => [(TaskStatus.failed, 0)]
                | AnalysisOutcome.ok =>
                    (TaskStatus.processing, 90) ::
                      if ¬ env.saveOk then [(TaskStatus.failed, 0)]
                      else [(TaskStatus.completed, 100)]

/-! ## agents/ai_workflow.py PythonCodeAnalysisWorkflow -/

/-- One entry of the pr_files list handed to the workflow (a dict built in
analyze_pr_task: filename, changes, content; content may be absent). -/
structure FileEntry where
  filename : String
  changes : Nat
  content : Option String
deriving DecidableEq, Repr

/-- Stable insertion of a file into a list already sorted by changes
descending: the new file goes after every file with at least as many
changes. -/
def insertByChangesDesc (x : FileEntry) : List FileEntry → List FileEntry
  | [] => [x]
  | y :: ys =>
      if y.changes < x.changes then x :: y :: ys
      else y :: insertByChangesDesc x ys

/-- Stable sort by changes descending, the semantics of Python
sorted(…, key=changes, reverse=True): equal keys keep their input order. -/
def sortByChangesDesc (l : List FileEntry) : List FileEntry :=
  l.foldl (fun acc x => insertByChangesDesc x acc) []

/-- ai_workflow.py select_files_for_analysis, lines 203-238: keep the .py
files, sort by the changes key descending (stable), take the first five,
return their filenames. -/
def select_files_for_analysis (pr_files : List FileEntry) : List String :=
  let sorted_files :=
    sortByChangesDesc (pr_files.filter (fun f => strEndsWith f.filename ".py"))
  (sorted_files.take 5).map (fun f => f.filename)

/-- ai_workflow.py fetch_file_contents, lines 240-277: for each selected
path, the content of the first pr_files entry with that filename,
defaulting to "" when the entry or its content is missing (the source uses
`match.get("content") or ""`, and a present-but-empty content also maps
to ""). -/
def fetch_file_contents (selected : List String) (pr_files : List FileEntry) :
    List (String × String) :=
  selected.map (fun p =>
    (p, ((pr_files.find? (fun f => f.filename = p)).bind FileEntry.content).getD ""))

/-- ai_workflow.py AnalysisType -/
inductive AnalysisType where
  | style
  | bug
  | performance
  | best_practice
deriving DecidableEq, Repr

def analysisTypeOfString (s : String) : Option AnalysisType :=
  if s = "style" then some AnalysisType.style
  else if s = "bug" then some AnalysisType.bug
  else if s = "performance" then some AnalysisType.performance
  else if s = "best_practice" then some AnalysisType.best_practice
  else none

/-- The issue dictionaries produced by the analysis tools in
agents/tools/python_tools.py (all six keys are always set by the tools). -/
structure RawIssue where
  type : String
  line : Nat
  description : String
  suggestion : String
  severity : String
  rule : String
deriving DecidableEq, Repr

/-- ai_workflow.py FileIssue -/
structure FileIssue where
  type : AnalysisType
  line : Nat
  description : String
  suggestion : String
  severity : String
deriving DecidableEq, Repr

/-- ai_workflow.py analyze_python_code, lines 331-345: the coercion of one
raw issue dict into a FileIssue.  An unrecognised type string falls back to
AnalysisType.STYLE; the other fields are copied. -/
def coerceIssue (r : RawIssue) : FileIssue :=
  { type := (analysisTypeOfString r.type).getD AnalysisType.style,
    line := r.line,
    description := r.description,
    suggestion := r.suggestion,
    severity := r.severity }

/-- ai_workflow.py FileAnalysis -/
structure FileAnalysisAW where
  name : String
  path : String
  issues : List FileIssue
  analyzed : Bool
  language : String
deriving DecidableEq, Repr

/-- A registered analyzer: (path, content) to a list of raw issue dicts,
or an exception. -/
abbrev AnalyzerFn := String → String → Except String (List RawIssue)

/-- ai_workflow.py analyze_python_code, lines 279-366: for each selected
file in order, run every analyzer in order on the file's content and
concatenate the results into one FileAnalysis.  The tool calls are NOT
individually guarded in the source, so the first exception raised by any
analyzer propagates out of the whole node. -/
def analyze_python_code (analyzers : List AnalyzerFn)
    (selected_files : List String) (file_contents : List (String × String)) :
    Except String (List FileAnalysisAW) :=
  selected_files.mapM (fun path => do
    let content := (file_contents.lookup path).getD ""
    let issueLists ← analyzers.mapM (fun a => a path content)
    Except.ok
      { name := lastPathComponent path,
        path := path,
        issues := issueLists.flatten.map coerceIssue,
        analyzed := true,
        language := "python" })

/-- The workflow output dict assembled by ai_workflow.py _format_results /
_create_error_response: status, optional error, per-file analyses and the
summary totals produced by synthesize_results. -/
structure WorkflowResult where
  analysis_type : String
  status : String
  error : Option String
  files : List FileAnalysisAW
  summary_total_files : Nat
  summary_total_issues : Nat
deriving DecidableEq, Repr

/-- ai_workflow.py analyze_pr, lines 130-168, composed with the graph
nodes file_selection, content_fetching, python_analysis and synthesis:
run the stages in order inside a try block; an exception anywhere inside
the graph yields _create_error_response (status "failed", no files). -/
def workflow_analyze_pr (analyzers : List AnalyzerFn)
    (pr_files : List FileEntry) : WorkflowResult :=
  let selected := select_files_for_analysis pr_files
  let contents := fetch_file_contents selected pr_files
  match analyze_python_code analyzers selected contents with
  | Except.ok fas =>
      { analysis_type := "ai_driven_python",
        status := "completed",
        error := none,
        files := fas,
        summary_total_files := fas.length,
        summary_total_issues := (fas.map (fun fa => fa.issues.length)).sum }
  | Except.error e =>
      { analysis_type := "ai_driven_error",
        status := "failed",
        error := some e,
        files := [],
        summary_total_files := 0,
        summary_total_issues := 0 }

/-! ## agents/analyzer.py LangGraphAnalyzer.analyze_pr -/

/-- The result dict of LangGraphAnalyzer.analyze_pr: either the
_create_empty_analysis dict, or the workflow's own result dict. -/
inductive AnalyzerResult where
  | emptyAnalysis (reason : String)
  | workflowOutput (wr : WorkflowResult)
deriving DecidableEq, Repr

/-- The "status" field of the result dict ("completed" in
_create_empty_analysis). -/
def AnalyzerResult.status : AnalyzerResult → String
  | AnalyzerResult.emptyAnalysis _ => "completed"
  | AnalyzerResult.workflowOutput wr => wr.status

/-- The files list of the result dict ([] in _create_empty_analysis). -/
def AnalyzerResult.resultFiles : AnalyzerResult → List FileAnalysisAW
  | AnalyzerResult.emptyAnalysis _ => []
  | AnalyzerResult.workflowOutput wr => wr.files

/-- The summary's total_files field (0 in _create_empty_analysis). -/
def AnalyzerResult.summaryTotalFiles : AnalyzerResult → Nat
  | AnalyzerResult.emptyAnalysis _ => 0
  | AnalyzerResult.workflowOutput wr => wr.summary_total_files

/-- The summary's total_issues field (0 in _create_empty_analysis). -/
def AnalyzerResult.summaryTotalIssues : AnalyzerResult → Nat
  | AnalyzerResult.emptyAnalysis _ => 0
  | AnalyzerResult.workflowOutput wr => wr.summary_total_issues

/-- agents/analyzer.py analyze_pr, lines 28-60: filter the changed files
to the .py ones; when none remain, return _create_empty_analysis("No
Python files found") without calling the workflow; otherwise run the
workflow on the Python files.  The workflow is a parameter so that the
empty branch is provably independent of it. -/
def langgraph_analyze_pr (workflow : List FileEntry → WorkflowResult)
    (files_data : List FileEntry) : AnalyzerResult :=
  let python_files := files_data.filter (fun f => strEndsWith f.filename ".py")
  if python_files.isEmpty then
    AnalyzerResult.emptyAnalysis "No Python files found"
  else
    AnalyzerResult.workflowOutput (workflow python_files)

/-- tasks/analyze_tasks.py analyze_pr_task, lines 373-428: after the
analysis call returns, a result whose status is "failed" marks the task
FAILED; otherwise the results are saved (a raising save also marks the
task FAILED through the outer handler) and the task is marked
COMPLETED. -/
def task_outcome_after_analysis (res : AnalyzerResult) (saveOk : Bool) :
    TaskStatus :=
  if res.status = "failed" then TaskStatus.failed
  else if saveOk then TaskStatus.completed
  else TaskStatus.failed

/-! ## agents/tools/python_tools.py bug_analysis_tool -/

/-- Does the haystack start with the needle? (character lists) -/
def listStartsWith : List Char → List Char → Bool
  | _, [] => true
  | [], _ :: _ => false
  | a :: as, b :: bs => a == b && listStartsWith as bs

/-- Does the haystack contain the needle as a contiguous sublist? -/
def listHasSub (hay needle : List Char) : Bool :=
  match hay with
  | [] => needle.isEmpty
  | _ :: t => listStartsWith hay needle || listHasSub t needle

/-- Python `needle in hay` on strings. -/
def containsSub (hay needle : String) : Bool :=
  listHasSub hay.data needle.data

/-- The nodes ast.walk yields that bug_analysis_tool inspects: exception
handlers (with their handled type, None for a bare except), comparison
nodes (for each comparator position, whether the comparator is the None
constant and whether the matching operator is Eq), and anything else. -/
inductive PyNode where
  | exceptHandler (handledType : Option String) (lineno : Nat)
  | compare (lineno : Nat) (comparators : List (Bool × Bool))
  | other (lineno : Nat)
deriving DecidableEq, Repr

/-- python_tools.py bug_analysis_tool lines 137-168: the issues one walked
node contributes — a bare except handler yields a medium bug issue, and
each comparator that is the None constant compared with Eq yields a medium
bug issue. -/
def nodeBugChecks : PyNode → List RawIssue
  | PyNode.exceptHandler none l =>
      [{ type := "bug", line := l,
         description := "Bare except clause catches all exceptions",
         suggestion := "Specify the exception type or use a typed except",
         severity := "medium", rule := "bare_except" }]
  | PyNode.exceptHandler (some _) _ => []
  | PyNode.compare l comps =>
      comps.flatMap (fun c =>
        if c.1 && c.2 then
          [{ type := "bug", line := l,
             description := "Comparison with None should use identity",
             suggestion := "Use identity comparison with None",
             severity := "medium", rule := "none_comparison" }]
        else [])
  | PyNode.other _ => []

/-- The result of ast.parse on the file content: the walked node list, or
a syntax error carrying the reported line (None when unknown). -/
inductive ParseResult where
  | parsed (nodes : List PyNode)
  | parseFailure (lineno : Option Nat) (msg : String)
deriving DecidableEq, Repr

/-- python_tools.py bug_analysis_tool lines 170-180: the single critical
issue recorded for a file whose source fails to parse.  The line is
Python's `e.lineno or 1`, so a missing (or zero, hence falsy) line becomes
line 1. -/
def syntaxErrorIssue (lineno : Option Nat) (msg : String) : RawIssue :=
  { type := "bug",
    line := match lineno with
            | some n => if n = 0 then 1 else n
            | none => 1,
    description := "Syntax error: " ++ msg,
    suggestion := "Fix the syntax error",
    severity := "critical",
    rule := "syntax_error" }

/-- python_tools.py bug_analysis_tool lines 183-195: the line-based text
check, run over the numbered lines (1-based): any line containing a print
call and not starting (after stripping) with a comment marker yields a low
bug issue. -/
def printStatementChecks (i : Nat) : List String → List RawIssue
  | [] => []
  | l :: ls =>
      (if containsSub l "print(" && ! (l.trim.startsWith "#") then
        [{ type := "bug", line := i,
           description := "Use logging instead of print statements",
           suggestion := "Replace print with logging calls",
           severity := "low", rule := "print_statement" }]
      else []) ++ printStatementChecks (i + 1) ls

/-- python_tools.py bug_analysis_tool, lines 109-198: split the content
into lines; walk the syntax tree collecting structural issues, or — when
the parse fails — record exactly the one critical syntax-error issue and
skip the walk; then always run the line-based text checks and append their
issues.  The parse outcome of the content is passed explicitly (an oracle
for ast.parse). -/
def bug_analysis_tool (parse : ParseResult) (file_content : String) :
    List RawIssue :=
  let lines := file_content.splitOn "\n"
  let astIssues :=
    match parse with
    | ParseResult.parsed nodes => nodes.flatMap nodeBugChecks
    | ParseResult.parseFailure l m => [syntaxErrorIssue l m]
  astIssues ++ printStatementChecks 1 lines

/-! ## services/llm_service.py — validation of model-backed output -/

/-- models/database.py IssueType -/
inductive IssueType where
  | style
  | bug
  | performance
  | security
  | maintainability
  | best_practice
deriving DecidableEq, Repr

/-- models/database.py IssueSeverity -/
inductive IssueSeverity where
  | low
  | medium
  | high
  | critical
deriving DecidableEq, Repr

/-- IssueType(value): the enum lookup by value string. -/
def issueTypeOfString (s : String) : Option IssueType :=
  if s = "style" then some IssueType.style
  else if s = "bug" then some IssueType.bug
  else if s = "performance" then some IssueType.performance
  else if s = "security" then some IssueType.security
  else if s = "maintainability" then some IssueType.maintainability
  else if s = "best_practice" then some IssueType.best_practice
  else none

/-- IssueSeverity(value): the enum lookup by value string. -/
def issueSeverityOfString (s : String) : Option IssueSeverity :=
  if s = "low" then some IssueSeverity.low
  else if s = "medium" then some IssueSeverity.medium
  else if s = "high" then some IssueSeverity.high
  else if s = "critical" then some IssueSeverity.critical
  else none

/-- llm_service.py AIAnalysisIssue.validate_issue_type, lines 30-36:
try IssueType(v.lower()), on ValueError default to BEST_PRACTICE. -/
def validate_issue_type (v : String) : IssueType :=
  (issueTypeOfString (strToLower v)).getD IssueType.best_practice

/-- llm_service.py AIAnalysisIssue.validate_issue_severity, lines 38-44:
try IssueSeverity(v.lower()), on ValueError default to LOW. -/
def validate_issue_severity (v : String) : IssueSeverity :=
  (issueSeverityOfString (strToLower v)).getD IssueSeverity.low

/-- An untrusted issue-shaped record from the model: each required field
may be missing. -/
structure RawModelRecord where
  type : Option String
  severity : Option String
  line : Option Int
  description : Option String
  suggestion : Option String
deriving DecidableEq, Repr

/-- llm_service.py AIAnalysisIssue, lines 21-44: a validated record.  All
five fields are required. -/
structure AIAnalysisIssue where
  type : IssueType
  severity : IssueSeverity
  line : Int
  description : String
  suggestion : String
deriving DecidableEq, Repr

/-- Pydantic validation of one record against AIAnalysisIssue: a missing
required field fails validation; the type and severity strings are coerced
by the two field validators. -/
def validateModelRecord (r : RawModelRecord) : Option AIAnalysisIssue :=
  match r.type, r.severity, r.line, r.description, r.suggestion with
  | some t, some s, some l, some d, some g =>
      some { type := validate_issue_type t,
             severity := validate_issue_severity s,
             line := l,
             description := d,
             suggestion := g }
  | _, _, _, _, _ => none

/-- Pydantic validation of AIAnalysisResult.issues: every record must
validate; the first failing record fails the whole list. -/
def validateRecords : List RawModelRecord → Option (List AIAnalysisIssue)
  | [] => some []
  | r :: rs =>
      match validateModelRecord r, validateRecords rs with
      | some i, some is => some (i :: is)
      | _, _ => none

/-- llm_service.py analyze_code, lines 79-124: the response is validated
as a list of AIAnalysisIssue; a validation failure anywhere raises inside
the try block, whose handler returns the empty list.  So the call never
raises: it returns the validated issues, or [] when any record is
malformed. -/
def llm_analyze_code (records : List RawModelRecord) : List AIAnalysisIssue :=
  match validateRecords records with
  | some issues => issues
  | none => []

/-! ## agents/intelligent_workflow.py synthesize_report_node and
tasks/analyze_tasks.py save_analysis_results -/

/-- An issue dict inside analysis_results: synthesize_report_node reads
only its severity and type strings (both always present in the records the
validated model path produces). -/
structure IWIssue where
  type : String
  severity : String
deriving DecidableEq, Repr

/-- intelligent_workflow.py FileAnalysis: one file's results. -/
structure IWFileAnalysis where
  file_path : String
  issues : List IWIssue
deriving DecidableEq, Repr

/-- The severity_breakdown dict, initialised with exactly the four keys
critical/high/medium/low. -/
structure SevBreakdown where
  critical : Nat
  high : Nat
  medium : Nat
  low : Nat
deriving DecidableEq, Repr

/-- intelligent_workflow.py lines 163-167: `if severity in
severity_breakdown: severity_breakdown[severity] += 1` — only the four
preset keys are counted, any other severity string is ignored. -/
def sevBump (b : SevBreakdown) (s : String) : SevBreakdown :=
  if s = "critical" then { b with critical := b.critical + 1 }
  else if s = "high" then { b with high := b.high + 1 }
  else if s = "medium" then { b with medium := b.medium + 1 }
  else if s = "low" then { b with low := b.low + 1 }
  else b

/-- Python dict update `type_breakdown[t] = type_breakdown.get(t, 0) + 1`
on an association
list modelling the dict. -/
def assocBump : List (String × Nat) → String → List (String × Nat)
  | [], k => [(k, 1)]
  | (a, n) :: t, k =>
      if a = k then (a, n + 1) :: t else (a, n) :: assocBump t k

/-- dict.get(k, 0) -/
def typGet (l : List (String × Nat)) (k : String) : Nat :=
  (l.lookup k).getD 0

/-- The summary dict built by synthesize_report_node (its
overall_summary text is omitted). -/
structure IWSummary where
  total_files_analyzed : Nat
  total_issues : Nat
  severity_breakdown : SevBreakdown
  issue_type_breakdown : List (String × Nat)
deriving DecidableEq, Repr

/-- intelligent_workflow.py synthesize_report_node, lines 148-180:
total_issues is the sum of the per-file issue counts, total files the
number of analysed files; the severity breakdown counts only the four
preset severity keys, the type breakdown counts every type string. -/
def synthesize_report_node (analysis_results : List IWFileAnalysis) :
    IWSummary :=
  let total_issues := (analysis_results.map (fun r => r.issues.length)).sum
  let total_files := analysis_results.length
  let allIssues := analysis_results.flatMap IWFileAnalysis.issues
  { total_files_analyzed := total_files,
    total_issues := total_issues,
    severity_breakdown :=
      allIssues.foldl (fun b i => sevBump b i.severity) ⟨0, 0, 0, 0⟩,
    issue_type_breakdown :=
      allIssues.foldl (fun l i => assocBump l i.type) [] }

/-- models/database.py AnalysisSummary: the persisted summary row. -/
structure AnalysisSummaryRow where
  total_files : Nat
  total_issues : Nat
  critical_issues : Nat
  high_issues : Nat
  medium_issues : Nat
  low_issues : Nat
  style_issues : Nat
  bug_issues : Nat
  performance_issues : Nat
  security_issues : Nat
  maintainability_issues : Nat
  best_practice_issues : Nat
  code_quality_score : ℚ
  maintainability_score : ℚ
deriving DecidableEq, Repr

/-- tasks/analyze_tasks.py save_analysis_results, lines 131-165: the
AnalysisSummary row built from the workflow summary dict, with the dict
fallback chains instantiated at the key set that summary carries.
analyze_pr_task line 412 stores file_count under "total_files" before
saving, so the total_files fallback finds that key; the keys
critical_issues/high_issues/medium_issues/low_issues are absent, so the
severity fields come from sev.get(…); the keys style_issues, bug_issues,
…, code_quality_score, overall_score are absent, so the per-type fields
come from typ.get("quality"), typ.get("security"), typ.get("performance"),
typ.get("security"), typ.get("maintainability") and the literal defaults. -/
def save_analysis_summary (summary_in : IWSummary) (file_count : Nat) :
    AnalysisSummaryRow :=
  { total_files := file_count,
    total_issues := summary_in.total_issues,
    critical_issues := summary_in.severity_breakdown.critical,
    high_issues := summary_in.severity_breakdown.high,
    medium_issues := summary_in.severity_breakdown.medium,
    low_issues := summary_in.severity_breakdown.low,
    style_issues := typGet summary_in.issue_type_breakdown "quality",
    bug_issues := typGet summary_in.issue_type_breakdown "security",
    performance_issues := typGet summary_in.issue_type_breakdown "performance",
    security_issues := typGet summary_in.issue_type_breakdown "security",
    maintainability_issues := typGet summary_in.issue_type_breakdown "maintainability",
    best_practice_issues := 0,
    code_quality_score := 0,
    maintainability_score := 0 }

/-! ## Theorems -/

/-- The change counts of a file list are in non-increasing order. -/
def changesDescending : List FileEntry → Bool
  | [] => true
  | [_] => true
  | x :: y :: t => decide (y.changes ≤ x.changes) && changesDescending (y :: t)

/-- A list of rationals is in non-decreasing order. -/
def qNonDecreasing : List ℚ → Bool
  | [] => true
  | [_] => true
  | x :: y :: t => decide (x ≤ y) && qNonDecreasing (y :: t)

/-- The six candidate files of the File Selector determinism property:
change counts [0, 5, 5, 3, 8, 1] in input order. -/
def c5Candidates : List FileEntry :=
  [⟨"a.py", 0, some ""⟩, ⟨"b.py", 5, some ""⟩, ⟨"c.py", 5, some ""⟩,
   ⟨"d.py", 3, some ""⟩, ⟨"e.py", 8, some ""⟩, ⟨"f.py", 1, some ""⟩]

/-- C5: file selection is a deterministic function of its input (it is a
pure Lean function of the candidate list); on the six candidates with
change counts [0,5,5,3,8,1] and cap 5 it returns exactly
[e, b, c, d, f] — the 0-change file is excluded, the length is at most 5,
the order is by change count descending, and the tie between the two
5-change files is broken by their original input order (b before c). -/
theorem C5_file_selection_deterministic :
    select_files_for_analysis c5Candidates =
      ["e.py", "b.py", "c.py", "d.py", "f.py"]
    ∧ (select_files_for_analysis c5Candidates).contains "a.py" = false
    ∧ (select_files_for_analysis c5Candidates).length ≤ 5
    ∧ changesDescending
        (sortByChangesDesc
          (c5Candidates.filter (fun f => strEndsWith f.filename ".py"))) = true
    ∧ (select_files_for_analysis c5Candidates).indexOf "b.py" <
        (select_files_for_analysis c5Candidates).indexOf "c.py" := by
  decide

/-- The text-based print checks only ever produce severity "low" issues,
so they contribute nothing critical. -/
theorem printStatementChecks_no_critical (i : Nat) (ls : List String) :
    (printStatementChecks i ls).filter (fun x => x.severity == "critical") = [] := by
  induction ls generalizing i with
  | nil => rfl
  | cons l t ih =>
      by_cases h : (containsSub l "print(" && ! (l.trim.startsWith "#")) = true
      · simp [printStatementChecks, h, ih]
      · simp [printStatementChecks, h, ih]

/-- C6: a file content whose parse fails with a syntax error at line 7
makes bug_analysis_tool return the single critical issue (type bug,
severity critical, line 7) followed by exactly the line-based text-check
issues for the same file — no syntax-tree checks run; the critical issue
is unique; with an unknown error line the issue is at line 1. -/
theorem C6_parse_failure_single_critical_issue (msg content : String) :
    bug_analysis_tool (ParseResult.parseFailure (some 7) msg) content =
      syntaxErrorIssue (some 7) msg ::
        printStatementChecks 1 (content.splitOn "\n")
    ∧ (bug_analysis_tool (ParseResult.parseFailure (some 7) msg) content).filter
        (fun x => x.severity == "critical") = [syntaxErrorIssue (some 7) msg]
    ∧ (syntaxErrorIssue (some 7) msg).type = "bug"
    ∧ (syntaxErrorIssue (some 7) msg).severity = "critical"
    ∧ (syntaxErrorIssue (some 7) msg).line = 7
    ∧ (bug_analysis_tool (ParseResult.parseFailure none msg) content).filter
        (fun x => x.severity == "critical") = [syntaxErrorIssue none msg]
    ∧ (syntaxErrorIssue none msg).line = 1 := by
  refine ⟨rfl, ?_, rfl, rfl, rfl, ?_, rfl⟩ <;>
    simp [bug_analysis_tool, syntaxErrorIssue, printStatementChecks_no_critical]

/-- C9: when the changed-file list contains no filename ending in ".py",
LangGraphAnalyzer.analyze_pr returns the empty analysis — status
"completed", an empty files list, total_files = 0 and total_issues = 0 —
for EVERY workflow function, i.e. without the analysis workflow
influencing the result. -/
theorem C9_no_python_files_empty_result
    (workflow : List FileEntry → WorkflowResult)
    (files_data : List FileEntry)
    (h : ∀ f ∈ files_data, ¬ strEndsWith f.filename ".py") :
    langgraph_analyze_pr workflow files_data =
        AnalyzerResult.emptyAnalysis "No Python files found"
    ∧ (langgraph_analyze_pr workflow files_data).status = "completed"
    ∧ (langgraph_analyze_pr workflow files_data).resultFiles = []
    ∧ (langgraph_analyze_pr workflow files_data).summaryTotalFiles = 0
    ∧ (langgraph_analyze_pr workflow files_data).summaryTotalIssues = 0 := by
  have hf : files_data.filter (fun f => strEndsWith f.filename ".py") = [] := by
    rw [List.filter_eq_nil_iff]
    intro f hfm
    simpa using h f hfm
  refine ⟨?_, ?_, ?_, ?_, ?_⟩ <;>
    simp [langgraph_analyze_pr, hf, AnalyzerResult.status,
      AnalyzerResult.resultFiles, AnalyzerResult.summaryTotalFiles,
      AnalyzerResult.summaryTotalIssues]

/-- Witness for C9 at a concrete input with no Python files. -/
theorem C9_no_python_files_empty_result_witness :
    langgraph_analyze_pr (fun _ => workflow_analyze_pr [] [])
        [⟨"README.md", 4, some "text"⟩, ⟨"setup.cfg", 1, none⟩] =
      AnalyzerResult.emptyAnalysis "No Python files found" :=
  (C9_no_python_files_empty_result (fun _ => workflow_analyze_pr [] [])
    [⟨"README.md", 4, some "text"⟩, ⟨"setup.cfg", 1, none⟩] (by decide)).1

/-- C10: the task-status update never raises: it is a total function on
the table; when the task id is absent it performs no write and returns the
table unchanged, and when the write (commit) raises, the exception is
swallowed and the table is returned unchanged, so a failed status write
never aborts the calling pipeline. -/
theorem C10_update_status_never_raises :
    (∀ (db : TaskDB) (commitOk : Bool) (id : Nat) (st : TaskStatus)
        (p : ℚ) (msg : Option String) (now : Nat),
        db.lookup id = none →
        update_task_status db commitOk id st p msg now = db)
    ∧ (∀ (db : TaskDB) (id : Nat) (st : TaskStatus) (p : ℚ)
        (msg : Option String) (now : Nat),
        update_task_status db false id st p msg now = db) := by
  constructor
  · intro db commitOk id st p msg now h
    simp [update_task_status, update_task_status_attempt, h]
  · intro db id st p msg now
    simp only [update_task_status, update_task_status_attempt]
    cases db.lookup id <;> simp

/-- Witness for C10: a missing task id leaves a concrete table unchanged,
and a failing commit leaves it unchanged too. -/
theorem C10_update_status_never_raises_witness :
    update_task_status [(1, ⟨TaskStatus.pending, 0, none, none, none⟩)] true 2
        TaskStatus.processing 10 none 7 =
      [(1, ⟨TaskStatus.pending, 0, none, none, none⟩)]
    ∧ update_task_status [(1, ⟨TaskStatus.pending, 0, none, none, none⟩)] false 1
        TaskStatus.processing 10 none 7 =
      [(1, ⟨TaskStatus.pending, 0, none, none, none⟩)] :=
  ⟨C10_update_status_never_raises.1
      [(1, ⟨TaskStatus.pending, 0, none, none, none⟩)] true 2
      TaskStatus.processing 10 none 7 (by decide),
   C10_update_status_never_raises.2
      [(1, ⟨TaskStatus.pending, 0, none, none, none⟩)] 1
      TaskStatus.processing 10 none 7⟩

/-- A single invalid record fails the validation of the whole list. -/
theorem validateRecords_eq_none {records : List RawModelRecord}
    {r : RawModelRecord} (hm : r ∈ records)
    (hr : validateModelRecord r = none) :
    validateRecords records = none := by
  induction records with
  | nil => cases hm
  | cons a t ih =>
      rcases List.mem_cons.mp hm with h | h
      · subst h
        simp [validateRecords, hr]
      · have ht := ih h
        cases h2 : validateModelRecord a <;> simp [validateRecords, h2, ht]

/-- Everything a successful validation returns comes from validating some
input record. -/
theorem validateRecords_mem {records : List RawModelRecord}
    {issues : List AIAnalysisIssue} (hv : validateRecords records = some issues)
    {i : AIAnalysisIssue} (hi : i ∈ issues) :
    ∃ r ∈ records, validateModelRecord r = some i := by
  induction records generalizing issues with
  | nil =>
      simp [validateRecords] at hv
      subst hv
      cases hi
  | cons a t ih =>
      cases h2 : validateModelRecord a with
      | none => simp [validateRecords, h2] at hv
      | some j =>
          cases h3 : validateRecords t with
          | none => simp [validateRecords, h2, h3] at hv
          | some js =>
              simp [validateRecords, h2, h3] at hv
              subst hv
              rcases List.mem_cons.mp hi with h | h
              · exact ⟨a, List.mem_cons_self a t, by rw [h2, h]⟩
              · rcases ih h3 h with ⟨r, hrm, hrv⟩
                exact ⟨r, List.mem_cons_of_mem a hrm, hrv⟩

/-- C7: validation of model-backed issue records never raises (it is the
total function llm_analyze_code): an unrecognized type string coerces to
best_practice, an unrecognized severity string coerces to low (the spec's
concrete probes "nonsense"/"ultra" included), a record missing a required
field is dropped — the enclosing response validation fails and the caught
exception yields [] — and every returned issue is the validation of some
input record. -/
theorem C7_model_output_validation :
    (∀ s : String, issueTypeOfString (strToLower s) = none →
        validate_issue_type s = IssueType.best_practice)
    ∧ (∀ s : String, issueSeverityOfString (strToLower s) = none →
        validate_issue_severity s = IssueSeverity.low)
    ∧ validate_issue_type "nonsense" = IssueType.best_practice
    ∧ validate_issue_severity "ultra" = IssueSeverity.low
    ∧ (∀ (records : List RawModelRecord) (r : RawModelRecord),
        r ∈ records → validateModelRecord r = none →
        llm_analyze_code records = [])
    ∧ (∀ (records : List RawModelRecord) (i : AIAnalysisIssue),
        i ∈ llm_analyze_code records →
        ∃ r ∈ records, validateModelRecord r = some i) := by
  refine ⟨?_, ?_, by decide, by decide, ?_, ?_⟩
  · intro s h
    simp [validate_issue_type, h]
  · intro s h
    simp [validate_issue_severity, h]
  · intro records r hm hr
    simp [llm_analyze_code, validateRecords_eq_none hm hr]
  · intro records i hi
    unfold llm_analyze_code at hi
    cases hv : validateRecords records with
    | none => rw [hv] at hi; cases hi
    | some issues =>
        rw [hv] at hi
        exact validateRecords_mem hv hi

/-- Witness for C7: concrete coercions of "NONSENSE"/"ultra", and a
concrete record missing its line field making the whole response collapse
to []. -/
theorem C7_model_output_validation_witness :
    validate_issue_type "NONSENSE" = IssueType.best_practice
    ∧ validate_issue_severity "ULTRA" = IssueSeverity.low
    ∧ llm_analyze_code
        [⟨some "bug", some "high", some 3, some "d", some "s"⟩,
         ⟨some "bug", some "high", none, some "d", some "s"⟩] = [] :=
  ⟨C7_model_output_validation.1 "NONSENSE" (by decide),
   C7_model_output_validation.2.1 "ULTRA" (by decide),
   C7_model_output_validation.2.2.2.2.1
     [⟨some "bug", some "high", some 3, some "d", some "s"⟩,
      ⟨some "bug", some "high", none, some "d", some "s"⟩]
     ⟨some "bug", some "high", none, some "d", some "s"⟩
     (by simp) rfl⟩

/-- C4 counterexample: a status-update call issued on a task that is
already COMPLETED (completed_at = 5) is not rejected and not a no-op: it
overwrites completed_at with the new instant 9 and changes the stored
row, refuting the claim that completed_at is assigned only on the first
transition into a terminal state and that post-terminal calls never
overwrite. -/
theorem C4_counterexample_completed_at_overwritten :
    (update_task_status
        [(1, ⟨TaskStatus.completed, 100, some 1, some 5, none⟩)] true 1
        TaskStatus.completed 100 none 9).lookup 1 =
      some ⟨TaskStatus.completed, 100, some 1, some 9, none⟩
    ∧ (⟨TaskStatus.completed, 100, some 1, some 5, none⟩ : Task).completed_at =
        some 5
    ∧ update_task_status
        [(1, ⟨TaskStatus.completed, 100, some 1, some 5, none⟩)] true 1
        TaskStatus.completed 100 none 9 ≠
      [(1, ⟨TaskStatus.completed, 100, some 1, some 5, none⟩)] := by
  decide

/-- C4 amended: started_at is indeed assigned exactly on the first
transition into PROCESSING; but completed_at is assigned on EVERY write
whose status is COMPLETED or FAILED (not only the first, and never on
CANCELLED), and update_task_status does not reject post-terminal writes —
only the cancel endpoint rejects a task already in a terminal state. -/
theorem C4_amended_timestamp_assignment :
    (∀ (task : Task) (st : TaskStatus) (p : ℚ) (msg : Option String) (now : Nat),
        (updateTaskFields task st p msg now).started_at =
          (if st = TaskStatus.processing ∧ task.started_at = none
           then some now else task.started_at)
        ∧ (updateTaskFields task st p msg now).completed_at =
          (if st = TaskStatus.completed ∨ st = TaskStatus.failed
           then some now else task.completed_at))
    ∧ (∀ (task : Task) (reason : Option String),
        task.status ≠ TaskStatus.pending →
        task.status ≠ TaskStatus.processing →
        cancel_analysis_task (some task) reason =
          Except.error "409 Cannot cancel task") := by
  constructor
  · intro task st p msg now
    cases msg with
    | none =>
        constructor <;>
          · simp only [updateTaskFields]
            split_ifs with h1 h2 <;> simp_all
    | some m =>
        constructor <;>
          · simp only [updateTaskFields]
            split_ifs with h1 h2 <;> simp_all
  · intro task reason h1 h2
    simp [cancel_analysis_task, h1, h2]

/-- Witness for C4 at a concrete post-terminal cancel request. -/
theorem C4_amended_timestamp_assignment_witness :
    cancel_analysis_task
        (some ⟨TaskStatus.completed, 100, some 1, some 2, none⟩) none =
      Except.error "409 Cannot cancel task" :=
  C4_amended_timestamp_assignment.2
    ⟨TaskStatus.completed, 100, some 1, some 2, none⟩ none
    (by decide) (by decide)

/-- C8 counterexample: cancelling a PROCESSING task writes status
CANCELLED together with a non-null error_message ("Task cancelled by
user"), refuting the claim that error_message is non-null only while the
status is FAILED and is cleared by every non-FAILED write. -/
theorem C8_counterexample_cancel_sets_error_message :
    cancel_analysis_task
        (some ⟨TaskStatus.processing, 30, some 1, none, none⟩) none =
      Except.ok ⟨TaskStatus.cancelled, 30, some 1, none,
        some "Task cancelled by user"⟩
    ∧ TaskStatus.cancelled ≠ TaskStatus.failed
    ∧ (some "Task cancelled by user" ≠ (none : Option String)) :=
  ⟨rfl, by decide, by decide⟩

/-- C8 amended: update_task_status clears error_message on a non-FAILED
write only when a non-empty message argument is supplied — a write without
a message leaves the previous error_message untouched — and the cancel
endpoint sets error_message to the cancellation reason (or its default)
while the status it writes is CANCELLED, not FAILED. -/
theorem C8_amended_error_message :
    (∀ (task : Task) (st : TaskStatus) (p : ℚ) (msg : Option String) (now : Nat),
        (updateTaskFields task st p msg now).error_message =
          (match msg with
           | some m =>
               if m ≠ "" then
                 (if st = TaskStatus.failed then some m else none)
               else task.error_message
           | none => task.error_message))
    ∧ (∀ (task : Task) (reason : Option String),
        task.status = TaskStatus.processing →
        cancel_analysis_task (some task) reason =
          Except.ok { task with
            status := TaskStatus.cancelled,
            error_message := some (pyStrOr reason "Task cancelled by user") }) := by
  constructor
  · intro task st p msg now
    cases msg with
    | none =>
        simp only [updateTaskFields]
        split_ifs <;> simp
    | some m =>
        simp only [updateTaskFields]
        split_ifs <;> simp_all
  · intro task reason h
    simp [cancel_analysis_task, h]

/-- Witness for C8 at a concrete PROCESSING task cancelled without a
reason. -/
theorem C8_amended_error_message_witness :
    cancel_analysis_task
        (some ⟨TaskStatus.processing, 30, some 1, none, none⟩) none =
      Except.ok ⟨TaskStatus.cancelled, 30, some 1, none,
        some (pyStrOr none "Task cancelled by user")⟩ :=
  C8_amended_error_message.2
    ⟨TaskStatus.processing, 30, some 1, none, none⟩ none rfl

/-- C3 counterexample: in the run where PR metadata is fetched (progress
10 recorded) and the PR state is then found not analyzable, the pipeline
writes (FAILED, 0.0): the progress sequence 0, 10, 0 is not
non-decreasing although the task is never cancelled, refuting the claim
that progress is non-decreasing for every never-cancelled task. -/
theorem C3_counterexample_failed_resets_progress :
    analyze_pr_task_updates ⟨true, false, true, 3, AnalysisOutcome.ok, true⟩ =
      [(TaskStatus.processing, 0), (TaskStatus.processing, 10),
       (TaskStatus.failed, 0)]
    ∧ qNonDecreasing
        ((analyze_pr_task_updates
          ⟨true, false, true, 3, AnalysisOutcome.ok, true⟩).map Prod.snd) = false
    ∧ ∀ u ∈ analyze_pr_task_updates
        ⟨true, false, true, 3, AnalysisOutcome.ok, true⟩,
        u.1 ≠ TaskStatus.cancelled := by
  refine ⟨rfl, rfl, ?_⟩
  decide

/-- C3 amended: the progress writes of one pipeline run are non-decreasing
exactly on the runs that never write FAILED; every transition to FAILED
writes progress 0.0, which lowers previously recorded progress whenever
any positive progress was already written. -/
theorem C3_amended_progress_monotone (env : RunEnv) :
    ((∀ u ∈ analyze_pr_task_updates env, u.1 ≠ TaskStatus.failed) →
        qNonDecreasing ((analyze_pr_task_updates env).map Prod.snd) = true)
    ∧ (∀ u ∈ analyze_pr_task_updates env, u.1 = TaskStatus.failed →
        u.2 = 0) := by
  obtain ⟨m, s, f, n, a, v⟩ := env
  cases m <;> cases s <;> cases f <;> cases a <;> cases v <;> cases n <;>
    simp [analyze_pr_task_updates, qNonDecreasing] <;> norm_num

/-- Witness for C3 amended: the fully successful one-file run writes
progress 0, 10, 30, 80, 90, 100, which is non-decreasing. -/
theorem C3_amended_progress_monotone_witness :
    qNonDecreasing
      ((analyze_pr_task_updates
        ⟨true, true, true, 1, AnalysisOutcome.ok, true⟩).map Prod.snd) = true :=
  (C3_amended_progress_monotone
    ⟨true, true, true, 1, AnalysisOutcome.ok, true⟩).1 (by decide)

/-- An analyzer that returns one low style issue for every file and never
raises. -/
def goodAnalyzer : AnalyzerFn := fun _ _ =>
  Except.ok
    [{ type := "style", line := 1, description := "d", suggestion := "s",
       severity := "low", rule := "r" }]

/-- An analyzer that raises for the file f3.py and returns no issues for
every other file. -/
def badOnThird : AnalyzerFn := fun path _ =>
  if path = "f3.py" then Except.error "analyzer boom" else Except.ok []

/-- Five changed Python files, f3.py being the third by selection order. -/
def fiveFiles : List FileEntry :=
  [⟨"f1.py", 50, some "x"⟩, ⟨"f2.py", 40, some "x"⟩, ⟨"f3.py", 30, some "x"⟩,
   ⟨"f4.py", 20, some "x"⟩, ⟨"f5.py", 10, some "x"⟩]

/-- C2 counterexample: with five files and two registered analyzers of
which exactly one raises (only for file 3), the pipeline produces NO
FileAnalysis records at all — not even for the other four files or for the
non-raising analyzer on file 3 — the workflow result has status "failed",
and the task transitions to FAILED, not COMPLETED; this refutes the
per-file / per-analyzer isolation claim. -/
theorem C2_counterexample_isolation_fails :
    (langgraph_analyze_pr (workflow_analyze_pr [goodAnalyzer, badOnThird])
        fiveFiles).resultFiles = []
    ∧ (langgraph_analyze_pr (workflow_analyze_pr [goodAnalyzer, badOnThird])
        fiveFiles).status = "failed"
    ∧ task_outcome_after_analysis
        (langgraph_analyze_pr (workflow_analyze_pr [goodAnalyzer, badOnThird])
          fiveFiles) true = TaskStatus.failed
    ∧ task_outcome_after_analysis
        (langgraph_analyze_pr (workflow_analyze_pr [goodAnalyzer, badOnThird])
          fiveFiles) true ≠ TaskStatus.completed :=
  ⟨rfl, rfl, rfl, by decide⟩

/-- C2 amended: an exception raised by any analyzer on any selected file
aborts the analysis of every file: the workflow catches it at the top
level and returns a status "failed" result with an empty files list, and
the task then transitions to FAILED regardless of whether saving would
succeed (the worker itself does not crash). -/
theorem C2_amended_analyzer_exception_aborts
    (analyzers : List AnalyzerFn) (pr_files : List FileEntry) (e : String)
    (h : analyze_python_code analyzers (select_files_for_analysis pr_files)
        (fetch_file_contents (select_files_for_analysis pr_files) pr_files) =
      Except.error e) :
    (workflow_analyze_pr analyzers pr_files).status = "failed"
    ∧ (workflow_analyze_pr analyzers pr_files).files = []
    ∧ ∀ saveOk, task_outcome_after_analysis
        (AnalyzerResult.workflowOutput (workflow_analyze_pr analyzers pr_files))
        saveOk = TaskStatus.failed := by
  refine ⟨?_, ?_, ?_⟩ <;>
    simp [workflow_analyze_pr, h, task_outcome_after_analysis,
      AnalyzerResult.status]

/-- Witness for C2 amended at the concrete five-file, one-raising-analyzer
input. -/
theorem C2_amended_analyzer_exception_aborts_witness :
    (workflow_analyze_pr [goodAnalyzer, badOnThird] fiveFiles).status =
      "failed" :=
  (C2_amended_analyzer_exception_aborts [goodAnalyzer, badOnThird] fiveFiles
    "analyzer boom" rfl).1

/-- The failing input of C1: one analysed file with a single issue of type
"style" and severity "low". -/
def c1FailingResults : List IWFileAnalysis :=
  [⟨"a.py", [⟨"style", "low"⟩]⟩]

/-- C1: evaluation of the synthesize-then-persist composition at the
failing input.  The persisted summary has total_issues = 1 and its
severity counts sum to 1 and both scores lie in [0,100], but its per-type
counts sum to 0 ≠ total_issues: the adapter reads the per-type fallbacks
from the keys "quality" and "security", which the synthesizer's type
breakdown (keyed by the actual issue types) never contains, so style,
bug and best_practice counts are lost and the partition invariant the
spec requires fails. -/
theorem C1_code_eval_type_counts_lost :
    (save_analysis_summary (synthesize_report_node c1FailingResults)
        1).total_issues = 1
    ∧ ((save_analysis_summary (synthesize_report_node c1FailingResults)
          1).critical_issues
        + (save_analysis_summary (synthesize_report_node c1FailingResults)
            1).high_issues
        + (save_analysis_summary (synthesize_report_node c1FailingResults)
            1).medium_issues
        + (save_analysis_summary (synthesize_report_node c1FailingResults)
            1).low_issues = 1)
    ∧ ((save_analysis_summary (synthesize_report_node c1FailingResults)
          1).style_issues
        + (save_analysis_summary (synthesize_report_node c1FailingResults)
            1).bug_issues
        + (save_analysis_summary (synthesize_report_node c1FailingResults)
            1).performance_issues
        + (save_analysis_summary (synthesize_report_node c1FailingResults)
            1).security_issues
        + (save_analysis_summary (synthesize_report_node c1FailingResults)
            1).maintainability_issues
        + (save_analysis_summary (synthesize_report_node c1FailingResults)
            1).best_practice_issues = 0)
    ∧ (0 : Nat) ≠ 1
    ∧ 0 ≤ (save_analysis_summary (synthesize_report_node c1FailingResults)
          1).code_quality_score
    ∧ (save_analysis_summary (synthesize_report_node c1FailingResults)
          1).code_quality_score ≤ 100
    ∧ 0 ≤ (save_analysis_summary (synthesize_report_node c1FailingResults)
          1).maintainability_score
    ∧ (save_analysis_summary (synthesize_report_node c1FailingResults)
          1).maintainability_score ≤ 100 := by
  have hq : (save_analysis_summary (synthesize_report_node c1FailingResults)
      1).code_quality_score = 0 := rfl
  have hm : (save_analysis_summary (synthesize_report_node c1FailingResults)
      1).maintainability_score = 0 := rfl
  refine ⟨rfl, rfl, rfl, by decide, ?_, ?_, ?_, ?_⟩ <;>
    simp only [hq, hm] <;> norm_num

end CodeReviewAgent
